import Mathlib

/-!
Verification of the confirmed-actuation logic of this repository.

The embedded code is `src/ovladani_rele.py` (class `MqttRelaisController`
and the retry loop of `main`) and the message handler of
`src/night_guard.py`.  The Python side effects are made explicit:

* the mutable fields `_last_payload` and `_confirm_event` of the
  controller become a `ControllerState` value threaded through the
  functions;
* the background MQTT delivery thread becomes explicit lists of inbound
  messages: the messages handed to `_on_message` between the wait-state
  clearing and the publish, and the messages delivered during the
  confirmation wait, the latter tagged with their arrival time in
  seconds measured from the start of the wait;
* `threading.Event.wait(timeout)` becomes a recursion over that timed
  delivery list: the call wakes at the first delivery that sets the
  event, or returns `false` once the timeout has elapsed;
* `send_telegram` calls become `Notification` values collected in a
  list;
* the spec describes a durable single-slot last-confirmed-state store;
  the Python sources keep no such record, so a `PersistedState` value is
  threaded through an invocation unchanged, which makes the absence of
  reads and writes visible in the theorems.
-/

namespace OpenBK

/-- An inbound MQTT message as seen by a paho `on_message` callback:
decoded payload text and the retained flag of the broker. -/
structure InMessage where
  payload : String
  retain : Bool
deriving DecidableEq, Repr

/-- Whitespace as stripped by `str.strip()` from the ASCII payloads
used here. -/
def isSpaceChar (c : Char) : Bool := c = ' ' ∨ c = '\t' ∨ c = '\n' ∨ c = '\r'

/-- Python `str.strip()` on the ASCII payloads used here: drop leading
and trailing whitespace. -/
def pyStrip (s : String) : String :=
  ⟨((s.data.dropWhile isSpaceChar).reverse.dropWhile isSpaceChar).reverse⟩

/-- Python `str.lower()` on the ASCII payloads used here. -/
def pyLower (s : String) : String := ⟨s.data.map Char.toLower⟩

/-- Python `str.upper()` on the ASCII payloads used here. -/
def pyUpper (s : String) : String := ⟨s.data.map Char.toUpper⟩

/-- The confirmation-relevant mutable state of `MqttRelaisController`
(ovladani_rele.py lines 88-89): `_last_payload` and `_confirm_event`. -/
structure ControllerState where
  lastPayload : Option String
  confirmEvent : Bool
deriving DecidableEq, Repr

/-- A freshly constructed controller: `_last_payload = None` and the
confirm event unset.  The wait-state clearing in
`publish_and_wait_confirmation` (lines 163-165) resets the state to this
same value. -/
def initialControllerState : ControllerState :=
  { lastPayload := none, confirmEvent := false }

/-- The payload tokens recognized by `_on_message` (line 131). -/
def recognizedTokens : List String := ["on", "off", "1", "0", "true", "false"]

/-- The recognized tokens normalized to `"ON"` (line 133). -/
def onTokens : List String := ["on", "1", "true"]

/-- `MqttRelaisController._on_message` (ovladani_rele.py lines 121-135):
the stripped payload is stored into `_last_payload` unconditionally;
then, if its lower-cased form is a recognized token, the stored payload
is replaced by the normalization `"ON"` or `"OFF"` and the confirm event
is set.  The retained flag of the message is never consulted. -/
def onMessage (msg : InMessage) (st : ControllerState) : ControllerState :=
  let payload := pyStrip msg.payload
  let st1 : ControllerState := { st with lastPayload := some payload }
  let v := pyLower payload
  if v ∈ recognizedTokens then
    let norm := if v ∈ onTokens then "ON" else "OFF"
    { st1 with lastPayload := some norm, confirmEvent := true }
  else st1

/-- `on_message` of night_guard.py (lines 23-30): retained messages are
ignored outright; otherwise a stripped payload of `"0"` or `"1"`
replaces the observed state, anything else is dropped. -/
def ngOnMessage (msg : InMessage) (state : Option String) : Option String :=
  if msg.retain then state
  else
    let payload := pyStrip msg.payload
    if payload = "0" ∨ payload = "1" then some payload else state

/-- Outcome of one `publish_and_wait_confirmation` call: either the
`ValueError` raised on an invalid desired state, or a normal return
carrying the returned boolean and the time (seconds from the start of
the wait) at which the call returned. -/
inductive PWOutcome where
  | valueError
  | returned (confirmed : Bool) (retTime : Nat)
deriving DecidableEq, Repr

/-- Semantics of `self._confirm_event.wait(timeout_seconds)` followed by
the locked comparison `self._last_payload == desired_state`
(ovladani_rele.py lines 173-182), against a schedule of message
deliveries `(t, m)` with arrival times `t` in nondecreasing order.
If the event is already set the wait returns immediately (time `0`);
otherwise each delivery arriving within the timeout runs `_on_message`,
and the first one that sets the event wakes the wait at its arrival
time, after which the stored payload is compared with the desired state;
if no delivery sets the event before the timeout the call returns
`false` at the timeout. -/
def waitLoop (desired : String) (timeout : Nat) (st : ControllerState) :
    List (Nat × InMessage) → Bool × Nat × ControllerState
  | [] =>
    if st.confirmEvent then (st.lastPayload == some desired, 0, st)
    else (false, timeout, st)
  | (t, m) :: rest =>
    if st.confirmEvent then (st.lastPayload == some desired, 0, st)
    else if timeout < t then (false, timeout, st)
    else
      let st1 := onMessage m st
      if st1.confirmEvent then (st1.lastPayload == some desired, t, st1)
      else waitLoop desired timeout st1 rest

/-- `MqttRelaisController.publish_and_wait_confirmation`
(ovladani_rele.py lines 153-182).  `preDeliv` holds the messages the
background delivery thread hands to `_on_message` after the wait state
is cleared (lines 163-165) but before the publish (line 170) — such
deliveries are possible because the paho network loop runs on its own
thread; `deliv` holds the timed deliveries during the wait.  Returns the
outcome, the list of payloads published to the feed during the call, and
the controller state at the moment the call returns. -/
def publish_and_wait_confirmation (desired0 : String) (preDeliv : List InMessage)
    (deliv : List (Nat × InMessage)) (timeoutSeconds : Nat) (st : ControllerState) :
    PWOutcome × List String × ControllerState :=
  let desired := pyUpper desired0
  if desired ∈ (["ON", "OFF"] : List String) then
    let stPre := preDeliv.foldl (fun s m => onMessage m s)
      { lastPayload := none, confirmEvent := false }
    let w := waitLoop desired timeoutSeconds stPre deliv
    (PWOutcome.returned w.1 w.2.1, [desired], w.2.2)
  else
    (PWOutcome.valueError, [], st)

/-- Attempt budget `POKUSY` (ovladani_rele.py line 38). -/
def POKUSY : Nat := 3

/-- Per-attempt confirmation timeout `CEKANI_SEKUND` in seconds
(ovladani_rele.py line 39). -/
def CEKANI_SEKUND : Nat := 60

/-- The delivery environment of one attempt: what the background thread
hands to `_on_message` between the wait-state clearing and the publish
(`pre`), and during the confirmation wait (`during`, timed). -/
structure AttemptEnv where
  pre : List InMessage
  during : List (Nat × InMessage)
deriving Repr

/-- The notifications `main` sends through `send_telegram`
(ovladani_rele.py lines 215-216 and 227): the success message naming the
confirmed payload and the confirming attempt number, and the
device-unresponsive message. -/
inductive Notification where
  | stateConfirmed (state : String) (attempt : Nat)
  | unresponsive
deriving DecidableEq, Repr

/-- The single-slot durable last-confirmed-state record described by the
spec.  No code in the repository reads or writes such a record; it is
threaded through an invocation so that its (non-)use is visible. -/
inductive PersistedState where
  | unknown
  | lastConfirmed (state : String)
deriving DecidableEq, Repr

/-- The retry loop of `main` (ovladani_rele.py lines 209-224): attempts
run one after the other, each calling `publish_and_wait_confirmation`
on the controller state left by the previous attempt, and the loop stops
at the first attempt whose call returns `true`.  Returns the success
flag, the number of attempts executed (on success, the 1-based index of
the confirming attempt; on failure, the number of environments), and the
final controller state.  The `valueError` branch is unreachable from
`main`, whose payload is always `"ON"` or `"OFF"`. -/
def attemptLoop (desired : String) (timeout : Nat) (st : ControllerState) :
    List AttemptEnv → Bool × Nat × ControllerState
  | [] => (false, 0, st)
  | e :: rest =>
    let r := publish_and_wait_confirmation desired e.pre e.during timeout st
    match r.1 with
    | .returned true _ => (true, 1, r.2.2)
    | .returned false _ =>
      let w := attemptLoop desired timeout r.2.2 rest
      (w.1, w.2.1 + 1, w.2.2)
    | .valueError => (false, 0, r.2.2)

/-- The confirmation outcome each attempt reports, with the controller
state threaded exactly as in `attemptLoop`; the entries past the first
`true` describe attempts the loop never runs. -/
def attemptOutcomes (desired : String) (timeout : Nat) (st : ControllerState) :
    List AttemptEnv → List Bool
  | [] => []
  | e :: rest =>
    let r := publish_and_wait_confirmation desired e.pre e.during timeout st
    (match r.1 with
     | .returned c _ => c
     | .valueError => false) :: attemptOutcomes desired timeout r.2.2 rest

/-- Result of one invocation of the actuation section of `main`
(ovladani_rele.py lines 208-227). -/
structure InvocationResult where
  notifs : List Notification
  success : Bool
  attemptsUsed : Nat
  persisted : PersistedState
  ctrl : ControllerState
deriving Repr

/-- One invocation of the actuation section of `main` (ovladani_rele.py
lines 208-227): the desired payload is `"ON"` when the price is under
the limit and `"OFF"` otherwise; the retry loop runs with timeout
`CEKANI_SEKUND`; on success exactly one confirmation message is sent
(line 216), on failure exactly one unresponsive message (line 227).
`main` never reads or writes a durable last-confirmed-state record, so
`persisted` is returned unchanged and influences nothing. -/
def mainInvocation (podLimitem : Bool) (envs : List AttemptEnv)
    (persisted : PersistedState) (st : ControllerState) : InvocationResult :=
  let desired := if podLimitem then "ON" else "OFF"
  let w := attemptLoop desired CEKANI_SEKUND st envs
  { notifs := if w.1 then [.stateConfirmed desired w.2.1] else [.unresponsive],
    success := w.1,
    attemptsUsed := w.2.1,
    persisted := persisted,
    ctrl := w.2.2 }

/-- A sequence of invocations of `main`, each with a freshly constructed
controller (as in ovladani_rele.py line 205), threading the persisted
record from one invocation to the next and collecting all
notifications. -/
def runInvocations (persisted : PersistedState) :
    List (Bool × List AttemptEnv) → List Notification × PersistedState
  | [] => ([], persisted)
  | (pod, envs) :: rest =>
    let r := mainInvocation pod envs persisted initialControllerState
    let w := runInvocations r.persisted rest
    (r.notifs ++ w.1, w.2)

/-! Helper lemmas. -/

/-- A recognized payload is normalized and stored, and the confirm event
is set. -/
theorem onMessage_recognized (m : InMessage) (st : ControllerState)
    (h : pyLower (pyStrip m.payload) ∈ recognizedTokens) :
    onMessage m st =
      { lastPayload := some (if pyLower (pyStrip m.payload) ∈ onTokens then "ON" else "OFF"),
        confirmEvent := true } := by
  simp [onMessage, h]

/-- An unrecognized payload is stored raw and the confirm event is left
as it was. -/
theorem onMessage_malformed (m : InMessage) (st : ControllerState)
    (h : pyLower (pyStrip m.payload) ∉ recognizedTokens) :
    onMessage m st = { st with lastPayload := some (pyStrip m.payload) } := by
  simp [onMessage, h]

/-- Every token normalized to ON is a recognized token. -/
theorem onTokens_subset_recognized : ∀ v ∈ onTokens, v ∈ recognizedTokens := by decide

/-- A wait that starts with the event unset and receives only
unrecognized payloads returns false exactly at the timeout. -/
theorem waitLoop_malformed (desired : String) (T : Nat) (ds : List (Nat × InMessage)) :
    ∀ (st : ControllerState), st.confirmEvent = false →
      (∀ p ∈ ds, pyLower (pyStrip p.2.payload) ∉ recognizedTokens) →
      (waitLoop desired T st ds).1 = false ∧ (waitLoop desired T st ds).2.1 = T := by
  induction ds with
  | nil =>
    intro st hev _
    simp [waitLoop, hev]
  | cons p rest ih =>
    intro st hev hds
    obtain ⟨t, m⟩ := p
    have hm : pyLower (pyStrip m.payload) ∉ recognizedTokens :=
      hds (t, m) (List.mem_cons_self _ _)
    have h1 := onMessage_malformed m st hm
    have hev1 : (onMessage m st).confirmEvent = false := by
      rw [h1]; exact hev
    by_cases ht : T < t
    · simp [waitLoop, hev, ht]
    · have ihr := ih (onMessage m st) hev1
        (fun p hp => hds p (List.mem_cons_of_mem _ hp))
      simpa [waitLoop, hev, ht, hev1] using ihr

/-- For a valid desired state the call never raises and publishes
exactly the desired payload. -/
theorem pw_returned (desired : String) (hd : desired = "ON" ∨ desired = "OFF")
    (pre : List InMessage) (del : List (Nat × InMessage)) (T : Nat) (st : ControllerState) :
    ∃ c t st1, publish_and_wait_confirmation desired pre del T st
      = (.returned c t, [desired], st1) := by
  rcases hd with rfl | rfl <;> exact ⟨_, _, _, rfl⟩

/-- The retry loop runs at most as many attempts as it has environments;
on success the attempt count points at the first attempt whose outcome is
confirmed, every earlier outcome being unconfirmed; on failure every
attempt ran and was unconfirmed. -/
theorem attemptLoop_spec (desired : String) (hd : desired = "ON" ∨ desired = "OFF")
    (T : Nat) (envs : List AttemptEnv) :
    ∀ (st : ControllerState),
      (attemptLoop desired T st envs).2.1 ≤ envs.length ∧
      ((attemptLoop desired T st envs).1 = true →
        1 ≤ (attemptLoop desired T st envs).2.1 ∧
        (attemptOutcomes desired T st envs).getD ((attemptLoop desired T st envs).2.1 - 1) false
          = true ∧
        ∀ i, i + 1 < (attemptLoop desired T st envs).2.1 →
          (attemptOutcomes desired T st envs).getD i false = false) ∧
      ((attemptLoop desired T st envs).1 = false →
        (attemptLoop desired T st envs).2.1 = envs.length ∧
        ∀ i, i < envs.length → (attemptOutcomes desired T st envs).getD i false = false) := by
  induction envs with
  | nil =>
    intro st
    refine ⟨Nat.le_refl _, ?_, ?_⟩
    · intro h; simp [attemptLoop] at h
    · intro _; exact ⟨rfl, fun i hi => absurd hi (Nat.not_lt_zero i)⟩
  | cons e rest ih =>
    intro st
    obtain ⟨c, t, st1, hpw⟩ := pw_returned desired hd e.pre e.during T st
    cases c with
    | true =>
      have hloop : attemptLoop desired T st (e :: rest) = (true, 1, st1) := by
        simp [attemptLoop, hpw]
      have houts : attemptOutcomes desired T st (e :: rest)
          = true :: attemptOutcomes desired T st1 rest := by
        simp [attemptOutcomes, hpw]
      have hs : (attemptLoop desired T st (e :: rest)).1 = true := by rw [hloop]
      have hn : (attemptLoop desired T st (e :: rest)).2.1 = 1 := by rw [hloop]
      rw [hs, hn, houts]
      refine ⟨?_, ?_, ?_⟩
      · simp only [List.length_cons]; omega
      · intro _
        refine ⟨Nat.le_refl _, rfl, ?_⟩
        intro i hi
        omega
      · intro h; exact Bool.noConfusion h
    | false =>
      have hloop : attemptLoop desired T st (e :: rest)
          = ((attemptLoop desired T st1 rest).1, (attemptLoop desired T st1 rest).2.1 + 1,
             (attemptLoop desired T st1 rest).2.2) := by
        simp [attemptLoop, hpw]
      have houts : attemptOutcomes desired T st (e :: rest)
          = false :: attemptOutcomes desired T st1 rest := by
        simp [attemptOutcomes, hpw]
      have hs : (attemptLoop desired T st (e :: rest)).1
          = (attemptLoop desired T st1 rest).1 := by rw [hloop]
      have hn : (attemptLoop desired T st (e :: rest)).2.1
          = (attemptLoop desired T st1 rest).2.1 + 1 := by rw [hloop]
      obtain ⟨ihlen, ihpos, ihneg⟩ := ih st1
      rw [hs, hn, houts]
      refine ⟨?_, ?_, ?_⟩
      · simp only [List.length_cons]; omega
      · intro h
        obtain ⟨h1, h2, h3⟩ := ihpos h
        refine ⟨by omega, ?_, ?_⟩
        · have hidx : (attemptLoop desired T st1 rest).2.1 + 1 - 1
              = ((attemptLoop desired T st1 rest).2.1 - 1) + 1 := by omega
          rw [hidx, List.getD_cons_succ]
          exact h2
        · intro i hi
          cases i with
          | zero => rfl
          | succ j =>
            rw [List.getD_cons_succ]
            exact h3 j (by omega)
      · intro h
        obtain ⟨h1, h2⟩ := ihneg h
        refine ⟨by simp only [List.length_cons]; omega, ?_⟩
        intro i hi
        cases i with
        | zero => rfl
        | succ j =>
          rw [List.getD_cons_succ]
          refine h2 j ?_
          simp only [List.length_cons] at hi
          omega

/-- Unfolding lemma for the success flag of an invocation. -/
theorem mainInvocation_success (pod : Bool) (envs : List AttemptEnv)
    (p : PersistedState) (st : ControllerState) :
    (mainInvocation pod envs p st).success
      = (attemptLoop (if pod then "ON" else "OFF") CEKANI_SEKUND st envs).1 := rfl

/-- Unfolding lemma for the attempt count of an invocation. -/
theorem mainInvocation_attemptsUsed (pod : Bool) (envs : List AttemptEnv)
    (p : PersistedState) (st : ControllerState) :
    (mainInvocation pod envs p st).attemptsUsed
      = (attemptLoop (if pod then "ON" else "OFF") CEKANI_SEKUND st envs).2.1 := rfl

/-- Unfolding lemma for the notifications of an invocation. -/
theorem mainInvocation_notifs (pod : Bool) (envs : List AttemptEnv)
    (p : PersistedState) (st : ControllerState) :
    (mainInvocation pod envs p st).notifs
      = (if (attemptLoop (if pod then "ON" else "OFF") CEKANI_SEKUND st envs).1 then
          [Notification.stateConfirmed (if pod then "ON" else "OFF")
            (attemptLoop (if pod then "ON" else "OFF") CEKANI_SEKUND st envs).2.1]
        else [Notification.unresponsive]) := rfl

/-! Claim C1. -/

/-- C1 counterexample.  The property says a retained broker message
never satisfies a confirmation wait of publish_and_wait_confirmation.
In ovladani_rele.py the handler never consults the retained flag: here a
RETAINED message with payload ON, delivered 5 seconds into a wait for
ON, makes the call return confirmed at second 5. -/
theorem C1_counterexample :
    (publish_and_wait_confirmation "ON" [] [(5, ⟨"ON", true⟩)] 60
        initialControllerState).1 = PWOutcome.returned true 5 := by decide

/-- C1 amended.  Only the night_guard handler is retained-immune: it
leaves its state unchanged on every retained message.  The
ovladani_rele handler ignores the retained flag entirely, treating
retained and live messages identically, so a retained message whose
payload decodes to the desired state does satisfy the wait. -/
theorem C1_amended_retain_flag_ignored (p : String) (b : Bool) (st : ControllerState)
    (s : Option String) :
    onMessage ⟨p, true⟩ st = onMessage ⟨p, b⟩ st ∧ ngOnMessage ⟨p, true⟩ s = s :=
  ⟨rfl, rfl⟩

/-! Claim C2. -/

/-- C2 counterexample.  The property says a state-changed notification
fires iff the confirmed state differs from the persisted one (or that
one is Unknown), so two successive confirmations of ON with the
persisted record already holding ON should emit no notification (and any
n repeated confirmations exactly one).  The code keeps no persisted
record and notifies on every success: two successive confirmed-ON
invocations with the record at ON emit two notifications. -/
theorem C2_counterexample :
    (runInvocations (PersistedState.lastConfirmed "ON")
      [(true, [⟨[], [(1, ⟨"ON", false⟩)]⟩, ⟨[], []⟩, ⟨[], []⟩]),
       (true, [⟨[], [(1, ⟨"ON", false⟩)]⟩, ⟨[], []⟩, ⟨[], []⟩])]).1
      = [Notification.stateConfirmed "ON" 1, Notification.stateConfirmed "ON" 1] := by
  decide

/-- C2 amended.  Every invocation that ends confirmed emits exactly one
state notification, naming the confirmed payload and the confirming
attempt, regardless of the contents of the persisted record; n
successful confirmations of the same state therefore emit n
notifications, not one. -/
theorem C2_amended_notify_on_every_success (pod : Bool) (envs : List AttemptEnv)
    (p q : PersistedState) (st : ControllerState)
    (h : (mainInvocation pod envs p st).success = true) :
    (mainInvocation pod envs q st).notifs
      = [Notification.stateConfirmed (if pod then "ON" else "OFF")
          (mainInvocation pod envs q st).attemptsUsed] := by
  rw [mainInvocation_success] at h
  rw [mainInvocation_notifs, mainInvocation_attemptsUsed, h, if_pos rfl]

/-- C2 witness: a confirmed-ON invocation notifies although the
persisted record already holds ON. -/
theorem C2_witness :
    (mainInvocation true [⟨[], [(1, ⟨"ON", false⟩)]⟩, ⟨[], []⟩, ⟨[], []⟩]
        (PersistedState.lastConfirmed "ON") initialControllerState).notifs
      = [Notification.stateConfirmed "ON"
          (mainInvocation true [⟨[], [(1, ⟨"ON", false⟩)]⟩, ⟨[], []⟩, ⟨[], []⟩]
            (PersistedState.lastConfirmed "ON") initialControllerState).attemptsUsed] :=
  C2_amended_notify_on_every_success true [⟨[], [(1, ⟨"ON", false⟩)]⟩, ⟨[], []⟩, ⟨[], []⟩]
    PersistedState.unknown (PersistedState.lastConfirmed "ON")
    initialControllerState (by decide)

/-! Claim C3. -/

/-- C3 counterexample.  The property says a live observation whose state
differs from the desired one does not satisfy the wait and the wait
continues until the attempt timeout (here 60).  In the code any
recognized payload sets the confirm event, so a live OFF delivered 5
seconds into a wait for ON wakes the wait at once: the call returns
unconfirmed at second 5, not at second 60. -/
theorem C3_counterexample :
    (publish_and_wait_confirmation "ON" [] [(5, ⟨"OFF", false⟩)] 60
        initialControllerState).1 = PWOutcome.returned false 5 := by decide

/-- C3 amended.  A live observation carrying a recognized state other
than the desired one never yields confirmation, but instead of letting
the wait continue it resolves the attempt immediately: the call returns
false at the arrival time of that observation. -/
theorem C3_amended_mismatch_ends_wait (desired : String) (lp : Option String)
    (T t : Nat) (m : InMessage) (rest : List (Nat × InMessage))
    (hrec : pyLower (pyStrip m.payload) ∈ recognizedTokens)
    (hne : (if pyLower (pyStrip m.payload) ∈ onTokens then "ON" else "OFF") ≠ desired)
    (ht : t ≤ T) :
    waitLoop desired T ⟨lp, false⟩ ((t, m) :: rest)
      = (false, t, onMessage m ⟨lp, false⟩) := by
  have h1 := onMessage_recognized m ⟨lp, false⟩ hrec
  have hev : (onMessage m ⟨lp, false⟩).confirmEvent = true := by rw [h1]
  have hpay : (onMessage m ⟨lp, false⟩).lastPayload
      = some (if pyLower (pyStrip m.payload) ∈ onTokens then "ON" else "OFF") := by rw [h1]
  have hnt : ¬ T < t := Nat.not_lt.mpr ht
  simp only [waitLoop]
  simp [hnt, hev, hpay, hne]

/-- C3 witness: a live OFF at second 5 of a 60-second wait for ON ends
the wait at second 5 with result false. -/
theorem C3_witness :
    waitLoop "ON" 60 ⟨none, false⟩ [(5, ⟨"OFF", false⟩)]
      = (false, 5, onMessage ⟨"OFF", false⟩ ⟨none, false⟩) :=
  C3_amended_mismatch_ends_wait "ON" none 60 5 ⟨"OFF", false⟩ []
    (by decide) (by decide) (by decide)

/-! Claim C4. -/

/-- C4 counterexample.  The property says the persisted record changes
iff an invocation succeeded.  The code never writes any persisted
record: an invocation that confirms ON on its first attempt leaves the
record Unknown, exactly as before. -/
theorem C4_counterexample :
    (mainInvocation true [⟨[], [(1, ⟨"ON", false⟩)]⟩, ⟨[], []⟩, ⟨[], []⟩]
        PersistedState.unknown initialControllerState).success = true ∧
    (mainInvocation true [⟨[], [(1, ⟨"ON", false⟩)]⟩, ⟨[], []⟩, ⟨[], []⟩]
        PersistedState.unknown initialControllerState).persisted
      = PersistedState.unknown :=
  ⟨by decide, rfl⟩

/-- C4 amended.  No invocation ever writes a persisted last-confirmed
state: the record is unchanged after every single invocation and after
every sequence of invocations, whatever the outcomes.  The half of the
original property about failed invocations holds for this reason, the
half about successful ones fails. -/
theorem C4_amended_no_persistence (pod : Bool) (envs : List AttemptEnv)
    (p : PersistedState) (st : ControllerState)
    (runs : List (Bool × List AttemptEnv)) :
    (mainInvocation pod envs p st).persisted = p ∧
    (runInvocations p runs).2 = p := by
  refine ⟨rfl, ?_⟩
  induction runs with
  | nil => rfl
  | cons head tail ih =>
    obtain ⟨pod1, envs1⟩ := head
    simpa [runInvocations] using ih

/-! Claim C5. -/

/-- C5.  Every invocation whose final result is unconfirmed emits
exactly one device-unresponsive notification, and the notification list
does not depend on the persisted record: the success flag is computed
from the attempts alone (hypothesis on record p), and the conclusion
holds for any record q. -/
theorem C5_failure_always_notified (pod : Bool) (envs : List AttemptEnv)
    (p q : PersistedState) (st : ControllerState)
    (h : (mainInvocation pod envs p st).success = false) :
    (mainInvocation pod envs q st).notifs = [Notification.unresponsive] := by
  rw [mainInvocation_success] at h
  rw [mainInvocation_notifs, h, if_neg (by simp)]

/-- C5 witness: three timed-out attempts produce the single
unresponsive notification even with a persisted record present. -/
theorem C5_witness :
    (mainInvocation true [⟨[], []⟩, ⟨[], []⟩, ⟨[], []⟩]
        (PersistedState.lastConfirmed "ON") initialControllerState).notifs
      = [Notification.unresponsive] :=
  C5_failure_always_notified true [⟨[], []⟩, ⟨[], []⟩, ⟨[], []⟩]
    PersistedState.unknown (PersistedState.lastConfirmed "ON")
    initialControllerState (by decide)

/-! Claim C6. -/

/-- C6.  With the attempt budget POKUSY (3 in the code), attempts are
executed strictly one after another — the embedding threads the
controller state of attempt k into attempt k+1, so attempt k+1 runs only
after attempt k has resolved — and the loop stops at the first confirmed
attempt: on success the attempt count is between 1 and POKUSY, points at
the first confirmed outcome, and all earlier outcomes were unconfirmed;
if every attempt times out the result is unconfirmed with attempt count
POKUSY. -/
theorem C6_sequential_bounded_attempts (pod : Bool) (envs : List AttemptEnv)
    (p : PersistedState) (st : ControllerState)
    (hlen : envs.length = POKUSY) :
    ((mainInvocation pod envs p st).success = true →
      1 ≤ (mainInvocation pod envs p st).attemptsUsed ∧
      (mainInvocation pod envs p st).attemptsUsed ≤ POKUSY ∧
      (attemptOutcomes (if pod then "ON" else "OFF") CEKANI_SEKUND st envs).getD
        ((mainInvocation pod envs p st).attemptsUsed - 1) false = true ∧
      ∀ i, i + 1 < (mainInvocation pod envs p st).attemptsUsed →
        (attemptOutcomes (if pod then "ON" else "OFF") CEKANI_SEKUND st envs).getD i false
          = false) ∧
    ((mainInvocation pod envs p st).success = false →
      (mainInvocation pod envs p st).attemptsUsed = POKUSY ∧
      ∀ i, i < POKUSY →
        (attemptOutcomes (if pod then "ON" else "OFF") CEKANI_SEKUND st envs).getD i false
          = false) := by
  have hd : (if pod then "ON" else "OFF") = "ON" ∨ (if pod then "ON" else "OFF") = "OFF" := by
    cases pod <;> simp
  obtain ⟨hL, hpos, hneg⟩ :=
    attemptLoop_spec (if pod then "ON" else "OFF") hd CEKANI_SEKUND envs st
  rw [hlen] at hL
  simp only [mainInvocation_success, mainInvocation_attemptsUsed]
  constructor
  · intro h
    obtain ⟨h1, h2, h3⟩ := hpos h
    exact ⟨h1, hL, h2, h3⟩
  · intro h
    obtain ⟨h1, h2⟩ := hneg h
    rw [hlen] at h1 h2
    exact ⟨h1, h2⟩

/-- C6 witness: with three silent attempt windows the invocation fails
after exactly POKUSY attempts. -/
theorem C6_witness :
    (mainInvocation true [⟨[], []⟩, ⟨[], []⟩, ⟨[], []⟩] PersistedState.unknown
        initialControllerState).attemptsUsed = POKUSY :=
  ((C6_sequential_bounded_attempts true [⟨[], []⟩, ⟨[], []⟩, ⟨[], []⟩]
      PersistedState.unknown initialControllerState rfl).2 (by decide)).1

/-! Claim C7. -/

/-- C7 counterexample.  The property says a live observation delivered
before the publish of attempt k never satisfies the wait of attempt k.
The clearing of the wait state happens before the publish, so a live ON
handed to the handler after the clearing but before the publish — the
paho network loop runs on its own thread, so this window is real — sets
the confirm event, and the wait returns confirmed immediately (time 0)
from a message that predates the command. -/
theorem C7_counterexample :
    (publish_and_wait_confirmation "ON" [⟨"ON", false⟩] [] 60
        initialControllerState).1 = PWOutcome.returned true 0 := by decide

/-- C7 amended.  The wait state is fully cleared before the publish, so
everything delivered before the clearing is discarded: the result of the
call does not depend on the controller state the call starts from.  A
live observation delivered in the window between the clearing and the
publish, however, can still satisfy the wait. -/
theorem C7_amended_clear_before_publish (desired : String)
    (hd : pyUpper desired = "ON" ∨ pyUpper desired = "OFF")
    (pre : List InMessage) (del : List (Nat × InMessage)) (T : Nat)
    (st st1 : ControllerState) :
    publish_and_wait_confirmation desired pre del T st
      = publish_and_wait_confirmation desired pre del T st1 := by
  have hmem : pyUpper desired ∈ (["ON", "OFF"] : List String) := by
    rcases hd with h | h <;> rw [h] <;> decide
  simp only [publish_and_wait_confirmation, if_pos hmem]

/-- C7 witness: a stale matching payload with the event set from before
the call changes nothing against a fresh controller state. -/
theorem C7_witness :
    publish_and_wait_confirmation "ON" [] [] 60 ⟨some "OFF", true⟩
      = publish_and_wait_confirmation "ON" [] [] 60 initialControllerState :=
  C7_amended_clear_before_publish "ON" (Or.inl (by decide)) [] [] 60
    ⟨some "OFF", true⟩ initialControllerState

/-! Claim C8. -/

/-- C8.  A status message whose payload does not decode to a recognized
relay state never signals a pending confirmation wait: the handler
leaves the confirm event exactly as it was (storing only the raw
payload) and returns normally rather than raising, and a wait fed
nothing but such messages times out instead of waking. -/
theorem C8_malformed_never_signals (m : InMessage) (st : ControllerState)
    (hm : pyLower (pyStrip m.payload) ∉ recognizedTokens)
    (desired : String) (T : Nat) (stw : ControllerState)
    (ds : List (Nat × InMessage))
    (hev : stw.confirmEvent = false)
    (hds : ∀ q ∈ ds, pyLower (pyStrip q.2.payload) ∉ recognizedTokens) :
    (onMessage m st).confirmEvent = st.confirmEvent ∧
    onMessage m st = { st with lastPayload := some (pyStrip m.payload) } ∧
    (waitLoop desired T stw ds).1 = false ∧ (waitLoop desired T stw ds).2.1 = T := by
  have h1 := onMessage_malformed m st hm
  exact ⟨by rw [h1], h1,
    (waitLoop_malformed desired T ds stw hev hds).1,
    (waitLoop_malformed desired T ds stw hev hds).2⟩

/-- C8 witness: the payload garbage leaves the event untouched, and a
wait receiving only the payload noise runs to its timeout. -/
theorem C8_witness :
    (onMessage ⟨"garbage", false⟩ ⟨some "ON", true⟩).confirmEvent
        = (⟨some "ON", true⟩ : ControllerState).confirmEvent ∧
    onMessage ⟨"garbage", false⟩ ⟨some "ON", true⟩
        = { lastPayload := some "garbage", confirmEvent := true } ∧
    (waitLoop "ON" 60 initialControllerState [(3, ⟨"noise", false⟩)]).1 = false ∧
    (waitLoop "ON" 60 initialControllerState [(3, ⟨"noise", false⟩)]).2.1 = 60 :=
  C8_malformed_never_signals ⟨"garbage", false⟩ ⟨some "ON", true⟩ (by decide) "ON" 60
    initialControllerState [(3, ⟨"noise", false⟩)] rfl (by decide)

/-! Claim C9. -/

/-- C9.  If the upper-cased input is neither ON nor OFF the call raises
ValueError before publishing anything and with the controller state
untouched; otherwise the call behaves exactly as on the upper-cased
input, so on and off in any letter case are accepted. -/
theorem C9_validation_atomic (s : String) (pre : List InMessage)
    (del : List (Nat × InMessage)) (T : Nat) (st : ControllerState) :
    (pyUpper s ∉ (["ON", "OFF"] : List String) →
      publish_and_wait_confirmation s pre del T st = (PWOutcome.valueError, [], st)) ∧
    (pyUpper s ∈ (["ON", "OFF"] : List String) →
      publish_and_wait_confirmation s pre del T st
        = publish_and_wait_confirmation (pyUpper s) pre del T st) := by
  constructor
  · intro h
    simp only [publish_and_wait_confirmation, if_neg h]
  · intro h
    have h2 : pyUpper s = "ON" ∨ pyUpper s = "OFF" := by
      simpa using h
    rcases h2 with h2 | h2
    · simp only [publish_and_wait_confirmation, h2,
        show pyUpper "ON" = "ON" from by decide]
    · simp only [publish_and_wait_confirmation, h2,
        show pyUpper "OFF" = "OFF" from by decide]

/-- C9 witness: the input banana raises with nothing published and the
state intact, and the input off proceeds as OFF. -/
theorem C9_witness :
    publish_and_wait_confirmation "banana" [] [] 60 initialControllerState
        = (PWOutcome.valueError, [], initialControllerState) ∧
    publish_and_wait_confirmation "off" [] [] 60 initialControllerState
        = publish_and_wait_confirmation (pyUpper "off") [] [] 60 initialControllerState :=
  ⟨(C9_validation_atomic "banana" [] [] 60 initialControllerState).1 (by decide),
   (C9_validation_atomic "off" [] [] 60 initialControllerState).2 (by decide)⟩

/-! Claim C10. -/

/-- C10 counterexample.  The property says the stored payload is always
ON or OFF whenever the confirmation event is set.  The handler stores
the raw payload of every message before checking whether it is
recognized: after a live ON followed by the unrecognized payload
garbage, the event is still set but the stored payload is garbage, and
it is that junk value the wait compares against the desired state, so
the matching live ON is lost and the call returns unconfirmed. -/
theorem C10_counterexample :
    publish_and_wait_confirmation "ON" [⟨"ON", false⟩, ⟨"garbage", false⟩] [] 60
        initialControllerState
      = (PWOutcome.returned false 0, ["ON"],
         { lastPayload := some "garbage", confirmEvent := true }) := by decide

/-- C10 amended.  Recognized payloads are normalized as the property
says — after strip and lower-case, on, 1 and true are stored as ON with
the event set, and off, 0 and false as OFF — and a device echoing 1
confirms a command published as ON; but the invariant that the stored
payload is ON or OFF whenever the event is set holds only until the next
unrecognized message, which overwrites the payload while leaving the
event set. -/
theorem C10_amended_normalization (m : InMessage) (st : ControllerState)
    (lp : Option String) (t T : Nat) (r : Bool) (rest : List (Nat × InMessage))
    (hon : pyLower (pyStrip m.payload) ∈ onTokens)
    (ht : t ≤ T) :
    onMessage m st = { lastPayload := some "ON", confirmEvent := true } ∧
    (∀ m1 st1, pyLower (pyStrip m1.payload) ∈ recognizedTokens →
       pyLower (pyStrip m1.payload) ∉ onTokens →
       onMessage m1 st1 = { lastPayload := some "OFF", confirmEvent := true }) ∧
    waitLoop "ON" T ⟨lp, false⟩ ((t, ⟨"1", r⟩) :: rest)
      = (true, t, { lastPayload := some "ON", confirmEvent := true }) := by
  refine ⟨?_, ?_, ?_⟩
  · rw [onMessage_recognized m st (onTokens_subset_recognized _ hon), if_pos hon]
  · intro m1 st1 hrec1 hon1
    rw [onMessage_recognized m1 st1 hrec1, if_neg hon1]
  · have hpay1 : (InMessage.mk "1" r).payload = "1" := rfl
    have h1 : onMessage ⟨"1", r⟩ ⟨lp, false⟩
        = { lastPayload := some "ON", confirmEvent := true } := by
      rw [onMessage_recognized ⟨"1", r⟩ ⟨lp, false⟩ (by rw [hpay1]; decide)]
      rw [hpay1, if_pos (by decide : pyLower (pyStrip "1") ∈ onTokens)]
    have hnt : ¬ T < t := Nat.not_lt.mpr ht
    simp only [waitLoop]
    simp [hnt, h1]

/-- C10 witness: the padded payload True normalizes to ON, and a
retained echo of 1 at second 5 confirms a wait for ON. -/
theorem C10_witness :
    onMessage ⟨" True ", true⟩ initialControllerState
        = { lastPayload := some "ON", confirmEvent := true } ∧
    (∀ m1 st1, pyLower (pyStrip m1.payload) ∈ recognizedTokens →
       pyLower (pyStrip m1.payload) ∉ onTokens →
       onMessage m1 st1 = { lastPayload := some "OFF", confirmEvent := true }) ∧
    waitLoop "ON" 60 ⟨some "stale", false⟩ [(5, ⟨"1", true⟩)]
      = (true, 5, { lastPayload := some "ON", confirmEvent := true }) :=
  C10_amended_normalization ⟨" True ", true⟩ initialControllerState (some "stale") 5 60
    true [] (by decide) (by decide)

end OpenBK
